import Mathlib

/-!
Shallow embedding of `src/copy_google_maps_link_plugin.py` (QGIS plugin
"Copy Google Maps Link"), together with proofs of the specification's
claims about it.

The plugin keeps one piece of mutable state, the module-global
`clicked_point_canvas_crs` (an optional canvas-CRS point).  Its three
behaviours are embedded as pure functions:

* `prepare_canvas_context_menu` (source lines 57-77): stores the clicked
  point and appends a separator plus the action to the menu, or logs a
  warning when the event is invalid;
* `copy_google_maps_link_from_context` (source lines 80-139): the
  six-outcome cascade (no point / invalid canvas CRS / invalid target
  CRS / transform exception / invalid WGS84 result / success) with the
  `finally` block that clears the stored point on every exit;
* `unload` (source lines 142-169): signal disconnection inside
  `try/except` and the sip-guarded `deleteLater` on the owned action.

Host interactions (CRS queries, the coordinate transform, clipboard,
message bar, log) are modelled by an environment record plus an explicit
trace of host calls.  Python floats returned by the transform are
modelled by the inductive `Fl` (NaN, signed infinity, or a finite
rational) with IEEE comparison semantics, which is exactly what the
validity check on source lines 115-117 exercises.
-/

namespace CopyGmapLink

/-- Model of a Python float as produced by the coordinate transform:
NaN, a signed infinity, or a finite value (modelled as a rational). -/
inductive Fl where
  | nan : Fl
  | inf : Bool → Fl
  | fin : ℚ → Fl
deriving DecidableEq, Repr

/-- Python `v == v` on a float: false exactly for NaN (IEEE). -/
def Fl.selfEq : Fl → Bool
  | .nan => false
  | _ => true

/-- Python `abs(v) == float('inf')`: true exactly for the infinities. -/
def Fl.absIsInf : Fl → Bool
  | .inf _ => true
  | _ => false

/-- Python `a <= b` on floats with IEEE semantics: any comparison with
NaN is false; `-inf` is below and `+inf` above every non-NaN value. -/
def Fl.le : Fl → Fl → Bool
  | .nan, _ => false
  | _, .nan => false
  | .inf true, .inf true => true
  | .inf true, _ => false
  | .inf false, _ => true
  | .fin _, .inf true => true
  | .fin _, .inf false => false
  | .fin a, .fin b => decide (a ≤ b)

/-- Rendering of a finite numeric value in a formatted string.  Python's
exact decimal formatting of floats is abstracted by a numerator/denominator
rendering; the claims only depend on where the rendered coordinates appear
inside the produced strings, never on the digits themselves. -/
def qRender (q : ℚ) : String := toString q.num ++ "/" ++ toString q.den

/-- Rendering of a transformed (float-valued) coordinate in log text,
modelling `QgsPointXY.toString()` on `point_wgs84`. -/
def Fl.render : Fl → String
  | .nan => "nan"
  | .inf true => "inf"
  | .inf false => "-inf"
  | .fin q => qRender q

/-- A canvas-CRS point: `QgsPointXY(x, y)` as stored by the click handler. -/
abbrev PointXY := ℚ × ℚ

/-- `QgsPointXY.toString()` on the stored canvas point (used in log text). -/
def ptToString (p : PointXY) : String := qRender p.1 ++ "," ++ qRender p.2

/-- `QgsPointXY.toString()` on the transformed point (used in log text). -/
def flPtToString (x y : Fl) : String := Fl.render x ++ "," ++ Fl.render y

/-- Message levels of the host UI/log (`Qgis.Info` etc.). -/
inductive MsgLevel where
  | info
  | warning
  | critical
  | success
deriving DecidableEq, Repr

/-- One call into the host platform, recorded in order of execution. -/
inductive HostCall where
  | getCanvasCrs
  | constructTargetCrs
  | transformPoint
  | clipboardSetText (s : String)
  | pushMessage (title text : String) (level : MsgLevel) (duration : Nat)
  | logMessage (text : String) (level : MsgLevel)
deriving DecidableEq, Repr

/-- The strings written to the system clipboard during a trace. -/
def clipboardWrites : List HostCall → List String
  | [] => []
  | .clipboardSetText s :: t => s :: clipboardWrites t
  | _ :: t => clipboardWrites t

/-- The transient messages pushed to the host message bar during a trace. -/
def uiMessages : List HostCall → List (String × String × MsgLevel × Nat)
  | [] => []
  | .pushMessage ti te l d :: t => (ti, te, l, d) :: uiMessages t
  | _ :: t => uiMessages t

/-- How many times the canvas CRS was read (`self.canvas.mapSettings().destinationCrs()`). -/
def countGetCanvasCrs : List HostCall → Nat
  | [] => 0
  | .getCanvasCrs :: t => countGetCanvasCrs t + 1
  | _ :: t => countGetCanvasCrs t

/-- How many times the target CRS was constructed (`QgsCoordinateReferenceSystem("EPSG:4326")`). -/
def countConstructTargetCrs : List HostCall → Nat
  | [] => 0
  | .constructTargetCrs :: t => countConstructTargetCrs t + 1
  | _ :: t => countConstructTargetCrs t

/-- How many times the coordinate transform was invoked (`transform.transform(...)`). -/
def countTransformPoint : List HostCall → Nat
  | [] => 0
  | .transformPoint :: t => countTransformPoint t + 1
  | _ :: t => countTransformPoint t

/-- The six possible results of one invocation of the copy action. -/
inductive Outcome where
  | noPointCaptured
  | invalidSourceCRS
  | invalidTargetCRS
  | transformError
  | invalidTransformResult
  | success
deriving DecidableEq, Repr

/-- The host-provided context of one invocation of the copy action:
validity of the canvas CRS, its authority id (for log text), validity of
the constructed EPSG:4326 CRS, and the transform itself, which either
returns a float point or raises (modelled by `Except` carrying `str(e)`). -/
structure CopyEnv where
  canvasCrsValid : Bool
  canvasCrsAuthid : String
  targetCrsValid : Bool
  transform : PointXY → Except String (Fl × Fl)

/-- Result of one invocation of the copy action: the new value of the
global `clicked_point_canvas_crs`, the outcome, and the host-call trace. -/
structure CopyResult where
  clickedPoint : Option PointXY
  outcome : Outcome
  trace : List HostCall
deriving DecidableEq, Repr

/-- The validity check on source lines 115-117, verbatim:
`not (x == x and y == y) or abs(x) == inf or abs(y) == inf or
 not (-90 <= y <= 90 and -180 <= x <= 180)`,
where `x` is the transformed longitude and `y` the transformed latitude. -/
def invalidWgs84 (x y : Fl) : Bool :=
  !(Fl.selfEq x && Fl.selfEq y) ||
  Fl.absIsInf x || Fl.absIsInf y ||
  !((Fl.le (Fl.fin (-90)) y && Fl.le y (Fl.fin 90)) &&
    (Fl.le (Fl.fin (-180)) x && Fl.le x (Fl.fin 180)))

/-- The link built on source line 124:
`f"https://www.google.com/maps?q={point_wgs84.y()},{point_wgs84.x()}"`. -/
def googleMapsLink (y x : Fl) : String :=
  "https://www.google.com/maps?q=" ++ Fl.render y ++ "," ++ Fl.render x

/-- `copy_google_maps_link_from_context` (source lines 80-139).  The
`clicked` argument is the global `clicked_point_canvas_crs` on entry; the
returned `clickedPoint` is its value on exit.  The `finally` block on
lines 137-139 sets the global to `None` on every exit from the `try`
body, so every branch below returns `clickedPoint := none`; the early
return on line 89 happens before the `try`, with the global already
`None`. -/
def copy_google_maps_link_from_context (env : CopyEnv) (clicked : Option PointXY) :
    CopyResult :=
  match clicked with
  | none =>
      { clickedPoint := none
        outcome := .noPointCaptured
        trace := [.pushMessage "Error"
                    "Could not get clicked point. Please right-click on the map again."
                    .critical 4,
                  .logMessage
                    "copy_google_maps_link_from_context: clicked_point_canvas_crs is None."
                    .warning] }
  | some pt =>
      if !env.canvasCrsValid then
        { clickedPoint := none
          outcome := .invalidSourceCRS
          trace := [.getCanvasCrs,
                    .pushMessage "Error" "Invalid Canvas CRS. Cannot perform transformation."
                      .critical 5,
                    .logMessage ("Invalid Canvas CRS: " ++ env.canvasCrsAuthid) .critical] }
      else if !env.targetCrsValid then
        { clickedPoint := none
          outcome := .invalidTargetCRS
          trace := [.getCanvasCrs, .constructTargetCrs,
                    .pushMessage "Error" "Could not define target CRS (EPSG:4326)."
                      .critical 5,
                    .logMessage "Failed to initialize EPSG:4326." .critical] }
      else
        match env.transform pt with
        | .error e =>
            { clickedPoint := none
              outcome := .transformError
              trace := [.getCanvasCrs, .constructTargetCrs, .transformPoint,
                        .pushMessage "Error" ("Error copying Google Maps link: " ++ e)
                          .critical 5,
                        .logMessage ("Error copying Google Maps link: " ++ e) .critical] }
        | .ok (x, y) =>
            if invalidWgs84 x y then
              { clickedPoint := none
                outcome := .invalidTransformResult
                trace := [.getCanvasCrs, .constructTargetCrs, .transformPoint,
                          .pushMessage "Error"
                            "Coordinate transformation failed or resulted in invalid WGS84 coordinates. Check project CRS."
                            .critical 5,
                          .logMessage
                            ("Coordinate transformation resulted in invalid WGS84. Original: "
                              ++ ptToString pt ++ ", Canvas CRS: " ++ env.canvasCrsAuthid
                              ++ ", Transformed: " ++ flPtToString x y) .critical] }
            else
              { clickedPoint := none
                outcome := .success
                trace := [.getCanvasCrs, .constructTargetCrs, .transformPoint,
                          .clipboardSetText (googleMapsLink y x),
                          .pushMessage "Success"
                            ("Google Maps link copied: " ++ googleMapsLink y x)
                            .success 5] }

/-- An entry of the canvas context menu. -/
inductive MenuItem where
  | separator
  | action (label : String)
deriving DecidableEq, Repr

/-- The `QgsMapMouseEvent` passed to the menu-preparation handler; its
`mapPoint()` may be absent (the guard on source line 65). -/
structure MouseEvent where
  mapPoint : Option PointXY
deriving DecidableEq, Repr

/-- `prepare_canvas_context_menu` (source lines 57-77): given the current
global `clicked_point_canvas_crs`, the menu and the (optional) mouse
event, returns the new global value, the new menu and the host-call
trace.  On a valid event it stores the point and appends a separator
plus the action; otherwise it only logs a warning. -/
def prepare_canvas_context_menu (clicked : Option PointXY) (menu : List MenuItem)
    (event : Option MouseEvent) :
    Option PointXY × List MenuItem × List HostCall :=
  match event with
  | some e =>
      match e.mapPoint with
      | some p =>
          (some p,
           menu ++ [.separator, .action "Copy Google Maps Link Here"],
           [])
      | none =>
          (clicked, menu,
           [.logMessage
              "Copy Google Maps Link: prepare_canvas_context_menu called without a valid event or mapPoint."
              .warning])
  | none =>
      (clicked, menu,
       [.logMessage
          "Copy Google Maps Link: prepare_canvas_context_menu called without a valid event or mapPoint."
          .warning])

/-- Python exception kinds relevant to `unload`. -/
inductive PyErr where
  | typeError
  | runtimeError
deriving DecidableEq, Repr

/-- The plugin-instance state that `unload` touches: whether the canvas
QObject is still alive (accessing its signal raises otherwise), whether
the menu-preparation handler is still connected, and the
`self.context_menu_action` reference (`none` once the Python reference is
cleared; otherwise the flag records `sip.isdeleted` on it). -/
structure UnloadState where
  canvasAlive : Bool
  connected : Bool
  contextMenuAction : Option Bool
deriving DecidableEq, Repr

/-- `self.canvas.contextMenuAboutToShow.disconnect(...)` (source line 151):
raises `RuntimeError` if the canvas QObject was deleted, `TypeError` if
the signal was not connected, otherwise succeeds leaving it disconnected. -/
def signalDisconnect (canvasAlive connected : Bool) : Except PyErr Bool :=
  if !canvasAlive then .error .runtimeError
  else if connected then .ok false
  else .error .typeError

/-- `QAction.deleteLater()` through sip (source line 163): raises
`RuntimeError` when the underlying C++ object was already deleted. -/
def actionDeleteLater (isDeleted : Bool) : Except PyErr Unit :=
  if isDeleted then .error .runtimeError else .ok ()

/-- `unload` (source lines 142-169).  The disconnect sits in a
`try/except` that catches `TypeError` and any other exception; the
`deleteLater` call is guarded by `sip.isdeleted`, after which the Python
reference is cleared.  An uncaught exception would surface as `.error`. -/
def unload (s : UnloadState) : Except PyErr (UnloadState × List HostCall) :=
  let disc :=
    match signalDisconnect s.canvasAlive s.connected with
    | .ok c =>
        (c, [HostCall.logMessage
               "Copy Google Maps Link: Disconnected from contextMenuAboutToShow."
               .info])
    | .error .typeError =>
        (s.connected,
         [HostCall.logMessage
            "Copy Google Maps Link: Signal (contextMenuAboutToShow) was already disconnected or not connected."
            .warning])
    | .error _ =>
        (s.connected,
         [HostCall.logMessage "Error disconnecting signal in unload: RuntimeError" .warning])
  let doneLog :=
    [HostCall.logMessage "Copy Google Maps Link: Unloaded successfully." .info]
  match s.contextMenuAction with
  | some isDeleted =>
      if isDeleted then
        .ok ({ canvasAlive := s.canvasAlive, connected := disc.1, contextMenuAction := none },
             disc.2 ++
             [HostCall.logMessage
                "Copy Google Maps Link: Context menu action was already deleted (likely by parent)."
                .info] ++ doneLog)
      else
        match actionDeleteLater isDeleted with
        | .ok _ =>
            .ok ({ canvasAlive := s.canvasAlive, connected := disc.1, contextMenuAction := none },
                 disc.2 ++
                 [HostCall.logMessage
                    "Copy Google Maps Link: Context menu action scheduled for deletion."
                    .info] ++ doneLog)
        | .error e => .error e
  | none =>
      .ok ({ canvasAlive := s.canvasAlive, connected := disc.1, contextMenuAction := none },
           disc.2 ++ doneLog)

/-- The outcome cascade exactly as the specification orders the checks:
absent point, then canvas-CRS validity, then target-CRS validity, then
the transform, then result validation, else success.  Stated from the
spec's words, to be compared with the embedded code. -/
def claimedOutcome (env : CopyEnv) (clicked : Option PointXY) : Outcome :=
  match clicked with
  | none => .noPointCaptured
  | some pt =>
      if !env.canvasCrsValid then .invalidSourceCRS
      else if !env.targetCrsValid then .invalidTargetCRS
      else
        match env.transform pt with
        | .error _ => .transformError
        | .ok (x, y) =>
            if invalidWgs84 x y then .invalidTransformResult else .success

/-! Helper lemmas about the validity check of source lines 115-117. -/

/-- A latitude beyond 90 fails the range check, whatever the longitude is. -/
lemma invalidWgs84_of_lat_gt (x : Fl) (q : ℚ) (h : 90 < q) :
    invalidWgs84 x (Fl.fin q) = true := by
  simp [invalidWgs84, Fl.le, show ¬(q ≤ 90) by linarith]

/-- A latitude below -90 fails the range check, whatever the longitude is. -/
lemma invalidWgs84_of_lat_lt (x : Fl) (q : ℚ) (h : q < -90) :
    invalidWgs84 x (Fl.fin q) = true := by
  simp [invalidWgs84, Fl.le, show ¬(-90 ≤ q) by linarith]

/-- A longitude beyond 180 fails the range check, whatever the latitude is. -/
lemma invalidWgs84_of_lon_gt (y : Fl) (q : ℚ) (h : 180 < q) :
    invalidWgs84 (Fl.fin q) y = true := by
  simp [invalidWgs84, Fl.le, show ¬(q ≤ 180) by linarith]

/-- A longitude below -180 fails the range check, whatever the latitude is. -/
lemma invalidWgs84_of_lon_lt (y : Fl) (q : ℚ) (h : q < -180) :
    invalidWgs84 (Fl.fin q) y = true := by
  simp [invalidWgs84, Fl.le, show ¬(-180 ≤ q) by linarith]

/-- A NaN longitude fails the self-equality check. -/
lemma invalidWgs84_of_nan_x (y : Fl) : invalidWgs84 Fl.nan y = true := by
  simp [invalidWgs84, Fl.selfEq]

/-- A NaN latitude fails the self-equality check. -/
lemma invalidWgs84_of_nan_y (x : Fl) : invalidWgs84 x Fl.nan = true := by
  simp [invalidWgs84, Fl.selfEq]

/-- An infinite longitude fails the absolute-value check. -/
lemma invalidWgs84_of_inf_x (y : Fl) (b : Bool) : invalidWgs84 (Fl.inf b) y = true := by
  simp [invalidWgs84, Fl.absIsInf]

/-- An infinite latitude fails the absolute-value check. -/
lemma invalidWgs84_of_inf_y (x : Fl) (b : Bool) : invalidWgs84 x (Fl.inf b) = true := by
  simp [invalidWgs84, Fl.absIsInf]

/-- In-range finite coordinates pass the validity check. -/
lemma invalidWgs84_fin_in_range (lon lat : ℚ)
    (hlat1 : -90 ≤ lat) (hlat2 : lat ≤ 90) (hlon1 : -180 ≤ lon) (hlon2 : lon ≤ 180) :
    invalidWgs84 (Fl.fin lon) (Fl.fin lat) = false := by
  simp [invalidWgs84, Fl.selfEq, Fl.absIsInf, Fl.le, hlat1, hlat2, hlon1, hlon2]

/-! The claims. -/

/-- C1: when a point is captured, the canvas CRS is valid, the target CRS
is constructible, and the transform returns finite non-NaN coordinates
with latitude in [-90, 90] and longitude in [-180, 180], the copy action
succeeds, writes exactly the string
`https://www.google.com/maps?q=<lat>,<lon>` (lat the transformed y, lon
the transformed x) to the clipboard, pushes a success message containing
that same link, and clears the captured point. -/
theorem copy_success_writes_link (env : CopyEnv) (pt : PointXY) (lon lat : ℚ)
    (hcrs : env.canvasCrsValid = true) (htgt : env.targetCrsValid = true)
    (htr : env.transform pt = .ok (Fl.fin lon, Fl.fin lat))
    (hlat1 : -90 ≤ lat) (hlat2 : lat ≤ 90) (hlon1 : -180 ≤ lon) (hlon2 : lon ≤ 180) :
    (copy_google_maps_link_from_context env (some pt)).outcome = Outcome.success ∧
    clipboardWrites (copy_google_maps_link_from_context env (some pt)).trace =
      [googleMapsLink (Fl.fin lat) (Fl.fin lon)] ∧
    uiMessages (copy_google_maps_link_from_context env (some pt)).trace =
      [("Success", "Google Maps link copied: " ++ googleMapsLink (Fl.fin lat) (Fl.fin lon),
        MsgLevel.success, 5)] ∧
    (copy_google_maps_link_from_context env (some pt)).clickedPoint = none := by
  have hv := invalidWgs84_fin_in_range lon lat hlat1 hlat2 hlon1 hlon2
  simp [copy_google_maps_link_from_context, hcrs, htgt, htr, hv,
    clipboardWrites, uiMessages]

/-- Witness for C1 at a concrete environment and point. -/
theorem copy_success_writes_link_witness :
    (copy_google_maps_link_from_context
      ⟨true, "EPSG:3857", true, fun _ => .ok (Fl.fin (-74), Fl.fin 40)⟩
      (some (1, 2))).outcome = Outcome.success ∧
    clipboardWrites (copy_google_maps_link_from_context
      ⟨true, "EPSG:3857", true, fun _ => .ok (Fl.fin (-74), Fl.fin 40)⟩
      (some (1, 2))).trace = [googleMapsLink (Fl.fin 40) (Fl.fin (-74))] :=
  ⟨(copy_success_writes_link _ (1, 2) (-74) 40 rfl rfl rfl
      (by norm_num) (by norm_num) (by norm_num) (by norm_num)).1,
   (copy_success_writes_link _ (1, 2) (-74) 40 rfl rfl rfl
      (by norm_num) (by norm_num) (by norm_num) (by norm_num)).2.1⟩

/-- C2: after every invocation of the copy action, in every outcome, the
stored clicked point is absent (the `finally` block clears it, and the
early no-point return leaves it already absent). -/
theorem copy_always_clears_point (env : CopyEnv) (clicked : Option PointXY) :
    (copy_google_maps_link_from_context env clicked).clickedPoint = none := by
  rcases clicked with _ | pt
  · rfl
  · simp only [copy_google_maps_link_from_context]
    split
    · rfl
    · split
      · rfl
      · split
        · rfl
        · split <;> rfl

/-- C3: when the transform returns a latitude outside [-90, 90], a
longitude outside [-180, 180], a NaN component or an infinite component,
the copy action fails with `invalidTransformResult`, pushes a UI error,
clears the captured point, and writes nothing to the clipboard. -/
theorem copy_invalid_result (env : CopyEnv) (pt : PointXY) (x y : Fl)
    (hcrs : env.canvasCrsValid = true) (htgt : env.targetCrsValid = true)
    (htr : env.transform pt = .ok (x, y))
    (hbad : (∃ q, y = Fl.fin q ∧ (q < -90 ∨ 90 < q)) ∨
            (∃ q, x = Fl.fin q ∧ (q < -180 ∨ 180 < q)) ∨
            x = Fl.nan ∨ y = Fl.nan ∨ (∃ b, x = Fl.inf b) ∨ (∃ b, y = Fl.inf b)) :
    (copy_google_maps_link_from_context env (some pt)).outcome =
      Outcome.invalidTransformResult ∧
    uiMessages (copy_google_maps_link_from_context env (some pt)).trace =
      [("Error",
        "Coordinate transformation failed or resulted in invalid WGS84 coordinates. Check project CRS.",
        MsgLevel.critical, 5)] ∧
    (copy_google_maps_link_from_context env (some pt)).clickedPoint = none ∧
    clipboardWrites (copy_google_maps_link_from_context env (some pt)).trace = [] := by
  have hv : invalidWgs84 x y = true := by
    rcases hbad with ⟨q, rfl, h | h⟩ | ⟨q, rfl, h | h⟩ | rfl | rfl | ⟨b, rfl⟩ | ⟨b, rfl⟩
    · exact invalidWgs84_of_lat_lt x q h
    · exact invalidWgs84_of_lat_gt x q h
    · exact invalidWgs84_of_lon_lt y q h
    · exact invalidWgs84_of_lon_gt y q h
    · exact invalidWgs84_of_nan_x y
    · exact invalidWgs84_of_nan_y x
    · exact invalidWgs84_of_inf_x y b
    · exact invalidWgs84_of_inf_y x b
  simp [copy_google_maps_link_from_context, hcrs, htgt, htr, hv,
    clipboardWrites, uiMessages]

/-- Witness for C3 at a latitude of 91. -/
theorem copy_invalid_result_witness :
    (copy_google_maps_link_from_context
      ⟨true, "EPSG:3857", true, fun _ => .ok (Fl.fin 0, Fl.fin 91)⟩
      (some (1, 2))).outcome = Outcome.invalidTransformResult ∧
    clipboardWrites (copy_google_maps_link_from_context
      ⟨true, "EPSG:3857", true, fun _ => .ok (Fl.fin 0, Fl.fin 91)⟩
      (some (1, 2))).trace = [] :=
  ⟨(copy_invalid_result _ (1, 2) (Fl.fin 0) (Fl.fin 91) rfl rfl rfl
      (Or.inl ⟨91, rfl, Or.inr (by norm_num)⟩)).1,
   (copy_invalid_result _ (1, 2) (Fl.fin 0) (Fl.fin 91) rfl rfl rfl
      (Or.inl ⟨91, rfl, Or.inr (by norm_num)⟩)).2.2.2⟩

/-- C4: invoking the copy action with no captured point yields the
`noPointCaptured` failure, pushes a transient UI error, and writes
nothing to the clipboard. -/
theorem copy_no_point_captured (env : CopyEnv) :
    (copy_google_maps_link_from_context env none).outcome = Outcome.noPointCaptured ∧
    uiMessages (copy_google_maps_link_from_context env none).trace =
      [("Error", "Could not get clicked point. Please right-click on the map again.",
        MsgLevel.critical, 4)] ∧
    clipboardWrites (copy_google_maps_link_from_context env none).trace = [] :=
  ⟨rfl, rfl, rfl⟩

/-- C5: every invocation of the copy action yields exactly the outcome of
the ordered cascade `claimedOutcome` (absent point, then canvas CRS, then
target CRS, then transform, then result validation, else success), and
the host-call trace shows the checks are attempted in that order: the
canvas CRS is read only when a point is captured, the target CRS is
constructed only after the canvas CRS proved valid, and the transform
runs only after both CRS checks passed. -/
theorem copy_outcome_cascade (env : CopyEnv) (clicked : Option PointXY) :
    (copy_google_maps_link_from_context env clicked).outcome =
      claimedOutcome env clicked ∧
    countGetCanvasCrs (copy_google_maps_link_from_context env clicked).trace =
      (if clicked.isSome then 1 else 0) ∧
    countConstructTargetCrs (copy_google_maps_link_from_context env clicked).trace =
      (if clicked.isSome && env.canvasCrsValid then 1 else 0) ∧
    countTransformPoint (copy_google_maps_link_from_context env clicked).trace =
      (if clicked.isSome && env.canvasCrsValid && env.targetCrsValid then 1 else 0) := by
  rcases clicked with _ | pt
  · exact ⟨rfl, rfl, by simp [copy_google_maps_link_from_context, countConstructTargetCrs],
      by simp [copy_google_maps_link_from_context, countTransformPoint]⟩
  · rcases hc : env.canvasCrsValid with _ | _
    · simp [copy_google_maps_link_from_context, claimedOutcome, hc,
        countGetCanvasCrs, countConstructTargetCrs, countTransformPoint]
    · rcases ht : env.targetCrsValid with _ | _
      · simp [copy_google_maps_link_from_context, claimedOutcome, hc, ht,
          countGetCanvasCrs, countConstructTargetCrs, countTransformPoint]
      · rcases htr : env.transform pt with e | ⟨x, y⟩
        · simp [copy_google_maps_link_from_context, claimedOutcome, hc, ht, htr,
            countGetCanvasCrs, countConstructTargetCrs, countTransformPoint]
        · rcases hv : invalidWgs84 x y with _ | _ <;>
            simp [copy_google_maps_link_from_context, claimedOutcome, hc, ht, htr, hv,
              countGetCanvasCrs, countConstructTargetCrs, countTransformPoint]

/-- C6: when the coordinate transform raises, the copy action fails with
`transformError`, pushes a UI error whose text includes the underlying
cause's text, clears the captured point, and writes nothing to the
clipboard. -/
theorem copy_transform_error (env : CopyEnv) (pt : PointXY) (e : String)
    (hcrs : env.canvasCrsValid = true) (htgt : env.targetCrsValid = true)
    (htr : env.transform pt = .error e) :
    (copy_google_maps_link_from_context env (some pt)).outcome =
      Outcome.transformError ∧
    uiMessages (copy_google_maps_link_from_context env (some pt)).trace =
      [("Error", "Error copying Google Maps link: " ++ e, MsgLevel.critical, 5)] ∧
    (copy_google_maps_link_from_context env (some pt)).clickedPoint = none ∧
    clipboardWrites (copy_google_maps_link_from_context env (some pt)).trace = [] := by
  simp [copy_google_maps_link_from_context, hcrs, htgt, htr, clipboardWrites, uiMessages]

/-- Witness for C6 at a transform that raises with message "proj error". -/
theorem copy_transform_error_witness :
    (copy_google_maps_link_from_context
      ⟨true, "EPSG:3857", true, fun _ => .error "proj error"⟩
      (some (1, 2))).outcome = Outcome.transformError ∧
    uiMessages (copy_google_maps_link_from_context
      ⟨true, "EPSG:3857", true, fun _ => .error "proj error"⟩
      (some (1, 2))).trace =
      [("Error", "Error copying Google Maps link: proj error", MsgLevel.critical, 5)] :=
  ⟨(copy_transform_error _ (1, 2) "proj error" rfl rfl rfl).1,
   (copy_transform_error _ (1, 2) "proj error" rfl rfl rfl).2.1⟩

/-- C7: the menu-preparation handler, on an event carrying a map point,
stores that point and appends a separator plus the "Copy Google Maps
Link Here" entry to the menu; on an invalid event (no event, or an event
without a map point) it leaves the menu unmodified, logs a warning, and
pushes no user-facing message. -/
theorem prepare_menu_behaviour (clicked : Option PointXY) (menu : List MenuItem)
    (p : PointXY) :
    prepare_canvas_context_menu clicked menu (some ⟨some p⟩) =
      (some p, menu ++ [MenuItem.separator, MenuItem.action "Copy Google Maps Link Here"],
       []) ∧
    prepare_canvas_context_menu clicked menu none =
      (clicked, menu,
       [HostCall.logMessage
          "Copy Google Maps Link: prepare_canvas_context_menu called without a valid event or mapPoint."
          MsgLevel.warning]) ∧
    prepare_canvas_context_menu clicked menu (some ⟨none⟩) =
      (clicked, menu,
       [HostCall.logMessage
          "Copy Google Maps Link: prepare_canvas_context_menu called without a valid event or mapPoint."
          MsgLevel.warning]) ∧
    uiMessages (prepare_canvas_context_menu clicked menu none).2.2 = [] ∧
    uiMessages (prepare_canvas_context_menu clicked menu (some ⟨none⟩)).2.2 = [] :=
  ⟨rfl, rfl, rfl, rfl, rfl⟩

/-- C8: unloading twice in a row never raises — the second disconnect's
`TypeError` is caught, and the action cleanup is skipped once the Python
reference is cleared — and neither invocation pushes any success/error
UI message or writes the clipboard. -/
theorem unload_twice_never_raises (s : UnloadState) :
    ∃ s1 t1, unload s = .ok (s1, t1) ∧ uiMessages t1 = [] ∧ clipboardWrites t1 = [] ∧
      ∃ s2 t2, unload s1 = .ok (s2, t2) ∧ uiMessages t2 = [] ∧ clipboardWrites t2 = [] := by
  rcases s with ⟨a, c, act⟩
  rcases a <;> rcases c <;> rcases act with _ | d
  all_goals try exact ⟨_, _, rfl, rfl, rfl, _, _, rfl, rfl, rfl⟩
  all_goals rcases d <;> exact ⟨_, _, rfl, rfl, rfl, _, _, rfl, rfl, rfl⟩

/-- C9: the menu-preparation handler, on an invalid event (no event, or
an event without a map point), leaves the previously stored clicked
point exactly as it was. -/
theorem prepare_invalid_keeps_point (clicked : Option PointXY) (menu : List MenuItem) :
    (prepare_canvas_context_menu clicked menu none).1 = clicked ∧
    (prepare_canvas_context_menu clicked menu (some ⟨none⟩)).1 = clicked :=
  ⟨rfl, rfl⟩

/-- C10: each invocation of the copy action writes the clipboard exactly
once when its outcome is success and never otherwise. -/
theorem copy_clipboard_iff_success (env : CopyEnv) (clicked : Option PointXY) :
    (clipboardWrites (copy_google_maps_link_from_context env clicked).trace).length =
      (if (copy_google_maps_link_from_context env clicked).outcome = Outcome.success
       then 1 else 0) := by
  rcases clicked with _ | pt
  · rfl
  · simp only [copy_google_maps_link_from_context]
    split
    · rfl
    · split
      · rfl
      · split
        · rfl
        · split <;> rename_i hv <;> simp [clipboardWrites]

end CopyGmapLink
